import Mathlib

/-!
Verification development for the DecisionOS frontend client
(src/frontend/app.js and the unnamed client files).

Shallow embedding of the client-side state and operations the
specification talks about: the event-stream notification log, the
citation resolver over the record cache, the work-session lifecycle,
the stateless-turn navigator, and the conflict-resolution flow.
Stateful code is modelled as explicit state passing; backend calls are
modelled by passing their eventual result (Except) into the part of the
flow that consumes it, and the synchronous prefix of a flow (up to the
point a call is issued) is modelled as its own function where the
specification distinguishes issue time from completion time.
-/

namespace DecisionOS

/-! ## Event Stream Client (handlePipelineEvent) -/

/-- A server-push pipeline event as consumed by handlePipelineEvent:
an event-type tag, an optional turn identifier, and a message.
The type-specific data payload only affects rendering detail inside a
single tile, not which tiles exist, so it is not modelled. -/
structure PipelineEvent where
  event_type : String
  turn_id : Option String
  message : String
deriving Repr, DecidableEq

/-- The observability panel: the stored current turn id (the mutable
currentTurnId variable) and the rendered notification log, one entry
per appended tile, in DOM order. -/
structure NotificationLog where
  currentTurnId : Option String
  log : List PipelineEvent
deriving Repr, DecidableEq

/-- JS truthiness of the optional turn-id string: undefined, null and
the empty string are falsy. -/
def truthyId : Option String → Bool
  | none => false
  | some s => s ≠ ""

/-- handlePipelineEvent from the source: connected events are skipped;
the log is cleared exactly when the stored turn id is truthy, the
incoming turn id is truthy, and they differ; the incoming event is then
appended as a tile and the stored turn id is assigned the incoming
turn id unconditionally. -/
def handlePipelineEvent (st : NotificationLog) (e : PipelineEvent) : NotificationLog :=
  if e.event_type = "connected" then st
  else if truthyId st.currentTurnId ∧ truthyId e.turn_id ∧ e.turn_id ≠ st.currentTurnId then
    { currentTurnId := e.turn_id, log := [e] }
  else
    { currentTurnId := e.turn_id, log := st.log ++ [e] }

/-- The panel state after a whole sequence of inbound events, starting
from the initial state (no stored turn id, empty log). -/
def processEvents (evs : List PipelineEvent) : NotificationLog :=
  evs.foldl handlePipelineEvent { currentTurnId := none, log := [] }

/-- The rendered log contains events from at most one turn identifier:
any two logged events that carry (truthy) turn ids carry the same one. -/
def logSingleTurn (st : NotificationLog) : Prop :=
  ∀ e1 ∈ st.log, ∀ e2 ∈ st.log,
    truthyId e1.turn_id = true → truthyId e2.turn_id = true → e1.turn_id = e2.turn_id

instance (st : NotificationLog) : Decidable (logSingleTurn st) := by
  unfold logSingleTurn
  infer_instance

/-- Inductive invariant of the panel: every logged event carries
exactly the stored turn id, and a nonempty log forces a truthy stored
id.  Holds along any run whose events all carry truthy turn ids. -/
def goodState (st : NotificationLog) : Prop :=
  (∀ e ∈ st.log, e.turn_id = st.currentTurnId) ∧
    (st.log = [] ∨ truthyId st.currentTurnId = true)

lemma goodState_step {st : NotificationLog} {e : PipelineEvent}
    (h : goodState st) (he : e.event_type ≠ "connected" → truthyId e.turn_id = true) :
    goodState (handlePipelineEvent st e) := by
  unfold handlePipelineEvent
  by_cases hc : e.event_type = "connected"
  · rw [if_pos hc]; exact h
  · have ht : truthyId e.turn_id = true := he hc
    rw [if_neg hc]
    by_cases hclear : truthyId st.currentTurnId ∧ truthyId e.turn_id ∧ e.turn_id ≠ st.currentTurnId
    · rw [if_pos hclear]
      refine ⟨?_, Or.inr ht⟩
      intro x hx
      have hx1 : x = e := by simpa using hx
      rw [hx1]
    · rw [if_neg hclear]
      rcases h with ⟨hall, hempty⟩
      constructor
      · intro x hx
        rcases List.mem_append.mp hx with hx1 | hx2
        · have hxid := hall x hx1
          rcases hempty with he1 | he2
          · rw [he1] at hx1; cases hx1
          · push_neg at hclear
            have heq := hclear he2 ht
            rw [hxid, heq]
        · have hx3 : x = e := by simpa using hx2
          rw [hx3]
      · exact Or.inr ht

lemma goodState_fold {st : NotificationLog} (evs : List PipelineEvent)
    (h : goodState st)
    (hall : ∀ e ∈ evs, e.event_type ≠ "connected" → truthyId e.turn_id = true) :
    goodState (evs.foldl handlePipelineEvent st) := by
  induction evs generalizing st with
  | nil => simpa using h
  | cons e rest ih =>
      simp only [List.foldl_cons]
      exact ih (goodState_step h (hall e (List.mem_cons_self e rest)))
        (fun x hx => hall x (List.mem_cons_of_mem e hx))

lemma goodState.single_turn {st : NotificationLog} (h : goodState st) :
    logSingleTurn st := by
  intro e1 h1 e2 h2 _ _
  rw [h.1 e1 h1, h.1 e2 h2]

/-- The four-event example of the claim: three events of turn T1
followed by one event of turn T2. -/
def t1t1t1t2 : List PipelineEvent :=
  [{ event_type := "intent_classified", turn_id := some "T1", message := "m1" },
   { event_type := "memories_retrieved", turn_id := some "T1", message := "m2" },
   { event_type := "generating", turn_id := some "T1", message := "m3" },
   { event_type := "intent_classified", turn_id := some "T2", message := "m4" }]

/-- A sequence that defeats the single-turn invariant: an event with a
missing turn id arrives between a T1 event and a T2 event.  The missing
id overwrites the stored turn id, so the T2 event no longer triggers a
clear and the log ends up holding both the T1 and the T2 event. -/
def mixedTurnEvents : List PipelineEvent :=
  [{ event_type := "generating", turn_id := some "T1", message := "m1" },
   { event_type := "generating", turn_id := none, message := "m2" },
   { event_type := "generating", turn_id := some "T2", message := "m3" }]

/-- C1 counterexample: after processing mixedTurnEvents the rendered
log contains events from two different turn identifiers, so the claimed
invariant fails for sequences containing events without turn ids. -/
theorem C1_counterexample : ¬ logSingleTurn (processEvents mixedTurnEvents) := by
  decide

/-- C1 (amended): provided every non-handshake event carries a truthy
turn id, the rendered log contains events from at most one turn
identifier at every instant; an event whose truthy turn id differs from
the truthy stored one sees the log cleared before it is appended; and
processing turn ids T1,T1,T1,T2 in order leaves exactly the single T2
event in the log. -/
theorem C1_single_turn_log :
    (∀ evs : List PipelineEvent,
        (∀ e ∈ evs, e.event_type ≠ "connected" → truthyId e.turn_id = true) →
        logSingleTurn (processEvents evs)) ∧
    (∀ (st : NotificationLog) (e : PipelineEvent),
        e.event_type ≠ "connected" → truthyId st.currentTurnId = true →
        truthyId e.turn_id = true → e.turn_id ≠ st.currentTurnId →
        (handlePipelineEvent st e).log = [e]) ∧
    processEvents t1t1t1t2 =
      { currentTurnId := some "T2",
        log := [{ event_type := "intent_classified", turn_id := some "T2", message := "m4" }] } := by
  refine ⟨?_, ?_, by decide⟩
  · intro evs hall
    exact (goodState_fold evs ⟨by simp, Or.inl rfl⟩ hall).single_turn
  · intro st e hc hst hev hne
    unfold handlePipelineEvent
    rw [if_neg hc, if_pos ⟨hst, hev, hne⟩]

/-- C1 witness: the amended invariant applied to the concrete
t1t1t1t2 sequence, whose events all carry truthy turn ids. -/
theorem C1_single_turn_log_witness : logSingleTurn (processEvents t1t1t1t2) :=
  C1_single_turn_log.1 t1t1t1t2 (by decide)

/-- C2 counterexample: with stored turn id T1, a non-handshake event
carrying no turn id does not leave the stored id unchanged - it resets
it to missing. -/
theorem C2_counterexample :
    (handlePipelineEvent { currentTurnId := some "T1", log := [] }
        { event_type := "generating", turn_id := none, message := "m" }).currentTurnId
      ≠ some "T1" := by
  decide

/-- C2 (amended): for every non-handshake event the stored current turn
id is assigned the incoming turn id unconditionally, so an event with a
missing turn id resets the stored id to missing rather than leaving it
unchanged. -/
theorem C2_turn_id_assignment :
    ∀ (st : NotificationLog) (e : PipelineEvent),
      e.event_type ≠ "connected" →
      (handlePipelineEvent st e).currentTurnId = e.turn_id := by
  intro st e hc
  unfold handlePipelineEvent
  by_cases hclear : truthyId st.currentTurnId ∧ truthyId e.turn_id ∧ e.turn_id ≠ st.currentTurnId
  · simp [hc, hclear]
  · simp [hc, hclear]

/-- C2 witness: the amended assignment rule applied to a concrete state
and a concrete event without a turn id. -/
theorem C2_turn_id_assignment_witness :
    (handlePipelineEvent { currentTurnId := some "T1", log := [] }
        { event_type := "generating", turn_id := none, message := "m" }).currentTurnId
      = none :=
  C2_turn_id_assignment { currentTurnId := some "T1", log := [] }
    { event_type := "generating", turn_id := none, message := "m" } (by decide)

/-! ## Record Cache and Citation Resolver (navigateToMemory) -/

/-- A typed durable record as the client caches it.  Only the identity
and the type tag participate in citation resolution. -/
structure Memory where
  id : String
  mtype : String
deriving Repr, DecidableEq

/-- The Record Cache shape (state.ledger): one ordered collection per
type tag. -/
structure Ledger where
  decisions : List Memory
  commitments : List Memory
  constraints : List Memory
  goals : List Memory
  failures : List Memory
  assumptions : List Memory
  exceptions : List Memory
  preferences : List Memory
  beliefs : List Memory
deriving Repr, DecidableEq

def emptyLedger : Ledger := ⟨[], [], [], [], [], [], [], [], []⟩

/-- The allMemories concatenation from navigateToMemory, in the fixed
source order of the nine type collections. -/
def allMemories (l : Ledger) : List Memory :=
  l.decisions ++ l.commitments ++ l.constraints ++ l.goals ++ l.failures ++
    l.assumptions ++ l.exceptions ++ l.preferences ++ l.beliefs

/-- ASCII uppercase of one character, as JS toUpperCase acts on the
character classes that occur in citation tokens. -/
def upperChar (c : Char) : Char :=
  if 'a' ≤ c ∧ c ≤ 'z' then Char.ofNat (c.toNat - 32) else c

/-- ASCII lowercase of one character, as JS toLowerCase. -/
def lowerChar (c : Char) : Char :=
  if 'A' ≤ c ∧ c ≤ 'Z' then Char.ofNat (c.toNat + 32) else c

def toUpperStr (s : String) : String := String.mk (s.toList.map upperChar)

def toLowerStr (s : String) : String := String.mk (s.toList.map lowerChar)

/-- JS startsWith: the second string is a leading piece of the first. -/
def strStartsWith (s pre : String) : Bool := List.isPrefixOf pre.toList s.toList

/-- The single combined scan predicate of navigateToMemory: the record
id equals the token or starts with the token. -/
def combinedMatch (tok : String) (m : Memory) : Bool :=
  m.id == tok || strStartsWith m.id tok

/-- The value of parseInt on a nonempty decimal digit string. -/
def digitsToNat (ds : List Char) : Nat :=
  ds.foldl (fun n c => n * 10 + (c.toNat - 48)) 0

/-- The regex match of navigateToMemory on the uppercased token: an
uppercase-letter group, optionally followed by a dash and a digit
group; returns the letter group and the parsed number when present. -/
def matchTypeNum (s : String) : Option (String × Option Nat) :=
  let cs := s.toList
  let letters := cs.takeWhile (fun c => 'A' ≤ c ∧ c ≤ 'Z')
  let rest := cs.dropWhile (fun c => 'A' ≤ c ∧ c ≤ 'Z')
  if letters = [] then none
  else
    match rest with
    | [] => some (String.mk letters, none)
    | '-' :: ds =>
        if ds ≠ [] ∧ ds.all Char.isDigit then some (String.mk letters, some (digitsToNat ds))
        else none
    | _ => none

/-- The typeMap of navigateToMemory: lowercased type name to the
corresponding cache collection. -/
def typeMemories (l : Ledger) (t : String) : Option (List Memory) :=
  if t = "decision" then some l.decisions
  else if t = "commitment" then some l.commitments
  else if t = "constraint" then some l.constraints
  else if t = "goal" then some l.goals
  else if t = "failure" then some l.failures
  else if t = "assumption" then some l.assumptions
  else if t = "exception" then some l.exceptions
  else if t = "preference" then some l.preferences
  else if t = "belief" then some l.beliefs
  else none

/-- The TYPE or TYPE-N strategy of navigateToMemory: parse the
uppercased token, map the lowercased type name through typeMap, and
index with N minus one (default index zero).  A negative index (N equal
to zero) yields undefined in JS and therefore no match, as does an
index at or beyond the collection length. -/
def findByTypePattern (l : Ledger) (tok : String) : Option Memory :=
  match matchTypeNum (toUpperStr tok) with
  | none => none
  | some (ty, nOpt) =>
      let memType := toLowerStr ty
      let memIndex : Int :=
        match nOpt with
        | some n => (n : Int) - 1
        | none => 0
      match typeMemories l memType with
      | none => none
      | some ms =>
          if memIndex < (ms.length : Int) then
            if 0 ≤ memIndex then ms[memIndex.toNat]? else none
          else none

/-- The resolution core of navigateToMemory: one combined scan over
allMemories for an id equal to or starting with the token, then the
type-pattern strategy. -/
def findMemory (l : Ledger) (tok : String) : Option Memory :=
  match (allMemories l).find? (combinedMatch tok) with
  | some m => some m
  | none => findByTypePattern l tok

/-- Modelled from the spec wording of the matching precedence, for
comparison with findMemory: tier one is an exact identity match, tier
two an identity-prefix match, tier three the type pattern - each tier
exhausted before the next is tried. -/
def resolveTieredSpec (l : Ledger) (tok : String) : Option Memory :=
  match (allMemories l).find? (fun m => m.id == tok) with
  | some m => some m
  | none =>
      match (allMemories l).find? (fun m => strStartsWith m.id tok) with
      | some m => some m
      | none => findByTypePattern l tok

def cexMemA : Memory := ⟨"aab11111", "decision"⟩

def cexMemB : Memory := ⟨"aa", "decision"⟩

def cexLedger : Ledger := { emptyLedger with decisions := [cexMemA, cexMemB] }

/-- C3 counterexample: the token aa is the exact id of a cached record,
yet resolution returns a different record whose id merely starts with
the token, because the code folds exact and prefix matching into one
first-match scan; the tiered spec resolution returns the exact record
instead. -/
theorem C3_counterexample :
    cexMemB ∈ allMemories cexLedger ∧ cexMemB.id = "aa" ∧
    findMemory cexLedger "aa" = some cexMemA ∧ cexMemA.id ≠ "aa" ∧
    resolveTieredSpec cexLedger "aa" = some cexMemB := by
  decide

def exDecision1 : Memory := ⟨"11112222-aaaa", "decision"⟩

def exDecision2 : Memory := ⟨"33334444-bbbb", "decision"⟩

def exCommitment1 : Memory := ⟨"55556666-cccc", "commitment"⟩

/-- The example cache of the claim: two decisions and one commitment,
in insertion order. -/
def exLedger : Ledger :=
  { emptyLedger with
      decisions := [exDecision1, exDecision2], commitments := [exCommitment1] }

/-- C3 (amended): exact and prefix matching are one combined
first-match scan in cache insertion order; when the token is the id of
a cached record, the cached ids are distinct, and no other cached id
merely starts with the token, resolution returns that exact record
(regardless of type-pattern ambiguity); and on the example cache,
DECISION-2 resolves to the second decision, DECISION to the first, and
a full record id to its own record. -/
theorem C3_resolution :
    (∀ (l : Ledger) (tok : String) (m : Memory),
        ((allMemories l).map Memory.id).Nodup →
        m ∈ allMemories l → m.id = tok →
        (∀ m2 ∈ allMemories l, strStartsWith m2.id tok = true → m2.id = tok) →
        findMemory l tok = some m) ∧
    findMemory exLedger "DECISION-2" = some exDecision2 ∧
    findMemory exLedger "DECISION" = some exDecision1 ∧
    findMemory exLedger "11112222-aaaa" = some exDecision1 := by
  refine ⟨?_, by decide, by decide, by decide⟩
  intro l tok m hnd hm hid hpre
  unfold findMemory
  cases hfind : (allMemories l).find? (combinedMatch tok) with
  | none =>
      exfalso
      apply List.find?_eq_none.mp hfind m hm
      simp [combinedMatch, hid]
  | some m2 =>
      have hp : combinedMatch tok m2 = true := List.find?_some hfind
      have hmem : m2 ∈ allMemories l := List.mem_of_find?_eq_some hfind
      have hid2 : m2.id = tok := by
        simp only [combinedMatch, Bool.or_eq_true, beq_iff_eq] at hp
        rcases hp with hp | hp
        · exact hp
        · exact hpre m2 hmem hp
      have hm2 : m2 = m :=
        List.inj_on_of_nodup_map hnd hmem hm (by rw [hid2, hid])
      exact congrArg some hm2

/-- C3 witness: the general exact-match clause applied to the example
cache and the full id of the second decision. -/
theorem C3_resolution_witness :
    findMemory exLedger "33334444-bbbb" = some exDecision2 :=
  C3_resolution.1 exLedger "33334444-bbbb" exDecision2 (by decide) (by decide)
    (by decide) (by decide)

/-- The observable outcome of a navigateToMemory invocation, up to the
view side effects. -/
inductive NavOutcome where
  | noProject : NavOutcome
  | found : Memory → NavOutcome
  | notFound : NavOutcome
  | crash : NavOutcome
deriving Repr, DecidableEq

/-- navigateToMemory as a function of the cache at entry and of the
cache that loadLedger leaves behind when the cache was empty (none when
the ledger fetch failed, since loadLedger swallows its error and leaves
state.ledger null).  Spreading the nine collections of a null ledger
throws a TypeError in JS; that is the crash outcome. -/
def navigateToMemoryResolve (projectSelected : Bool)
    (cache refreshed : Option Ledger) (tok : String) : NavOutcome :=
  if projectSelected = false then NavOutcome.noProject
  else
    let ledger :=
      match cache with
      | some l => some l
      | none => refreshed
    match ledger with
    | none => NavOutcome.crash
    | some l =>
        match findMemory l tok with
        | some m => NavOutcome.found m
        | none => NavOutcome.notFound

/-- C4: with a project selected, an empty cache and a failing ledger
refresh, resolution crashes with a null dereference instead of the
promised transient not-found notice; when the refresh succeeds (or the
cache is already populated) a miss is indeed the harmless not-found
outcome. -/
theorem C4_crash_on_failed_refresh :
    navigateToMemoryResolve true none none "DECISION" = NavOutcome.crash ∧
    navigateToMemoryResolve true none (some emptyLedger) "DECISION" = NavOutcome.notFound ∧
    navigateToMemoryResolve true (some emptyLedger) none "DECISION" = NavOutcome.notFound := by
  decide

/-! ## Work-Session State Machine (beginTask, endWorkSession) -/

/-- JS trim on the ASCII whitespace classes: leading and trailing
whitespace characters are removed. -/
def trimStr (s : String) : String :=
  String.mk
    (((s.toList.dropWhile Char.isWhitespace).reverse.dropWhile Char.isWhitespace).reverse)

/-- A transient user notice. -/
inductive Toast where
  | info : String → Toast
  | success : String → Toast
  | error : String → Toast
deriving Repr, DecidableEq

/-- The client-held work session: id plus task description. -/
structure WorkSession where
  session_id : String
  task_description : String
deriving Repr, DecidableEq

inductive Role where
  | system : Role
  | user : Role
  | assistant : Role
deriving Repr, DecidableEq

structure WMessage where
  role : Role
  content : String
deriving Repr, DecidableEq

/-- The work-chat state: Idle is workSession none, Active is
workSession some. -/
structure WorkState where
  workSession : Option WorkSession
  workMessages : List WMessage
deriving Repr, DecidableEq

/-- Synchronous prefix of beginTask, up to the point the work-start
backend call would be issued: the raw task-description input is
trimmed; an empty result is rejected with an error toast, no call, and
no state change.  Returns the state, the task description of the
issued call (none when no call is made), and the toast shown. -/
def beginTaskIssue (st : WorkState) (input : String) :
    WorkState × Option String × Option Toast :=
  let taskDescription := trimStr input
  if taskDescription = "" then
    (st, none, some (Toast.error "Please describe the task you want to work on"))
  else (st, some taskDescription, none)

/-- C8: a work-session start with a task description that is empty
after trimming is rejected: beginTask surfaces the error toast, issues
no backend call, and leaves the state (hence an Idle state machine)
unchanged. -/
theorem C8_empty_task_rejected :
    ∀ (st : WorkState) (input : String),
      trimStr input = "" →
      beginTaskIssue st input =
        (st, none, some (Toast.error "Please describe the task you want to work on")) := by
  intro st input h
  unfold beginTaskIssue
  rw [h]
  rfl

/-- C8 witness: a whitespace-only task description on an Idle state. -/
theorem C8_empty_task_rejected_witness :
    beginTaskIssue { workSession := none, workMessages := [] } "   " =
      ({ workSession := none, workMessages := [] }, none,
        some (Toast.error "Please describe the task you want to work on")) :=
  C8_empty_task_rejected { workSession := none, workMessages := [] } "   " (by decide)

/-- Synchronous prefix of the part_001 endWorkSession, up to the point
the end-session backend call is issued: with a held session and a
confirmed dialog, the session and messages are cleared (the UI is reset
to the start-task view) before the call goes out.  Returns the state
visible at issue time and the session id of the issued call. -/
def endWorkSessionIssue (st : WorkState) (confirmed : Bool) :
    WorkState × Option String :=
  match st.workSession with
  | none => (st, none)
  | some ws =>
      if confirmed then
        ({ workSession := none, workMessages := [] }, some ws.session_id)
      else (st, none)

/-- Completion of the part_001 endWorkSession: both the success branch
(success toast, stats and ledger refresh) and the failure branch (error
toast) leave workSession untouched. -/
def endWorkSessionComplete (st : WorkState) (result : Except String Nat) :
    WorkState × Toast :=
  match result with
  | Except.ok n => (st, Toast.success (toString n))
  | Except.error e => (st, Toast.error e)

/-- Synchronous prefix of the frontend/app.js endWorkSession: the call
is issued while the session is still held - the state is not cleared
before the result is known. -/
def endWorkSessionIssueApp (st : WorkState) (confirmed : Bool) :
    WorkState × Option String :=
  match st.workSession with
  | none => (st, none)
  | some ws => if confirmed then (st, some ws.session_id) else (st, none)

/-- Completion of the frontend/app.js endWorkSession: only the success
branch resets to the start-task view; the failure branch merely toasts
and leaves the session held. -/
def endWorkSessionCompleteApp (st : WorkState) (result : Except String Nat) :
    WorkState × Toast :=
  match result with
  | Except.ok n => ({ workSession := none, workMessages := [] }, Toast.success (toString n))
  | Except.error e => (st, Toast.error e)

def demoActiveState : WorkState :=
  { workSession := some { session_id := "s1", task_description := "task" },
    workMessages := [] }

/-- C5 counterexample: in the frontend/app.js variant the session is
still held at the instant the end call is issued, and a failing call
leaves the state Active - so the claimed synchronous transition to Idle
with no rollback does not hold for that implementation. -/
theorem C5_counterexample :
    ((endWorkSessionIssueApp demoActiveState true).1.workSession ≠ none) ∧
    (endWorkSessionCompleteApp demoActiveState (Except.error "boom")).1.workSession
      ≠ none := by
  decide

/-- C5 (amended): in the part_001 client, ending a confirmed Active
session clears the session synchronously with the call being issued,
and the state remains Idle whatever the call returns, with no rollback
on failure; the frontend/app.js variant instead transitions to Idle
only once the call succeeds. -/
theorem C5_end_session_optimistic :
    ∀ (st : WorkState) (ws : WorkSession) (result : Except String Nat),
      st.workSession = some ws →
      (endWorkSessionIssue st true).1.workSession = none ∧
      (endWorkSessionIssue st true).2 = some ws.session_id ∧
      (endWorkSessionComplete (endWorkSessionIssue st true).1 result).1.workSession
        = none := by
  intro st ws result hws
  unfold endWorkSessionIssue
  rw [hws]
  cases result with
  | ok n => exact ⟨rfl, rfl, rfl⟩
  | error e => exact ⟨rfl, rfl, rfl⟩

/-- C5 witness: the amended behavior on a concrete Active state with a
failing backend call. -/
theorem C5_end_session_optimistic_witness :
    (endWorkSessionIssue demoActiveState true).1.workSession = none ∧
    (endWorkSessionIssue demoActiveState true).2 = some "s1" ∧
    (endWorkSessionComplete (endWorkSessionIssue demoActiveState true).1
        (Except.error "boom")).1.workSession = none :=
  C5_end_session_optimistic demoActiveState
    { session_id := "s1", task_description := "task" } (Except.error "boom") rfl

/-! ## Stateless-Turn Navigator (sendProjectChatMessage, navigateProjectChat) -/

/-- A stateless turn stored in projectChatHistory: the user input and
the assistant reply. -/
structure ChatPair where
  user : String
  assistant : String
deriving Repr, DecidableEq

/-- The navigator state: an append-only history list and a cursor. -/
structure ProjectChatState where
  projectChatHistory : List ChatPair
  projectChatIndex : Nat
deriving Repr, DecidableEq

structure ChatResponse where
  assistant_text : String
deriving Repr, DecidableEq

/-- What the chat panel ends up showing for one send: nothing new when
the guard rejects, the stored pair on success, or the user message with
the generic failure text on error. -/
inductive ChatDisplay where
  | unchanged : ChatDisplay
  | pair : ChatPair → ChatDisplay
  | failure : String → ChatDisplay
deriving Repr, DecidableEq

def resetChatState : ProjectChatState :=
  { projectChatHistory := [], projectChatIndex := 0 }

/-- sendProjectChatMessage from the source: the trimmed input must be
nonempty and a project selected; on success the pair is pushed at the
end of the history and the cursor set to the new last position; on
failure only the inline error rendering happens - history and cursor
are untouched. -/
def sendProjectChatMessage (projectSelected : Bool) (st : ProjectChatState)
    (input : String) (result : Except String ChatResponse) :
    ProjectChatState × ChatDisplay :=
  let message := trimStr input
  if message = "" ∨ projectSelected = false then (st, ChatDisplay.unchanged)
  else
    match result with
    | Except.ok resp =>
        let hist := st.projectChatHistory ++
          [{ user := message, assistant := resp.assistant_text }]
        ({ projectChatHistory := hist, projectChatIndex := hist.length - 1 },
          ChatDisplay.pair { user := message, assistant := resp.assistant_text })
    | Except.error _ => (st, ChatDisplay.failure message)

/-- The navigator state after a sequence of successful sends starting
from a given state. -/
def foldSends (st : ProjectChatState) (sends : List (String × ChatResponse)) :
    ProjectChatState :=
  sends.foldl (fun s p => (sendProjectChatMessage true s p.1 (Except.ok p.2)).1) st

/-- The navigator state after a sequence of successful sends starting
from the reset state a project selection leaves behind. -/
def sendAll (sends : List (String × ChatResponse)) : ProjectChatState :=
  foldSends resetChatState sends

lemma foldSends_shape (sends : List (String × ChatResponse)) :
    ∀ st : ProjectChatState, (∀ p ∈ sends, trimStr p.1 ≠ "") →
      (foldSends st sends).projectChatHistory.length
          = st.projectChatHistory.length + sends.length ∧
        (sends ≠ [] → (foldSends st sends).projectChatIndex
          = st.projectChatHistory.length + sends.length - 1) := by
  induction sends with
  | nil => intro st _; simp [foldSends]
  | cons p rest ih =>
      intro st h
      have hp : trimStr p.1 ≠ "" := h p (List.mem_cons_self p rest)
      have hrest : ∀ x ∈ rest, trimStr x.1 ≠ "" :=
        fun x hx => h x (List.mem_cons_of_mem p hx)
      have hfold : foldSends st (p :: rest)
          = foldSends (sendProjectChatMessage true st p.1 (Except.ok p.2)).1 rest := by
        simp [foldSends]
      have hlen : (sendProjectChatMessage true st p.1 (Except.ok p.2)).1.projectChatHistory.length
          = st.projectChatHistory.length + 1 := by
        simp [sendProjectChatMessage, hp]
      have hidx : (sendProjectChatMessage true st p.1 (Except.ok p.2)).1.projectChatIndex
          = st.projectChatHistory.length := by
        simp [sendProjectChatMessage, hp]
      rcases ih (sendProjectChatMessage true st p.1 (Except.ok p.2)).1 hrest with ⟨ih1, ih2⟩
      constructor
      · rw [hfold, ih1, hlen]
        simp only [List.length_cons]
        omega
      · intro _
        rw [hfold]
        by_cases hr : rest = []
        · subst hr
          have : foldSends (sendProjectChatMessage true st p.1 (Except.ok p.2)).1 [] =
              (sendProjectChatMessage true st p.1 (Except.ok p.2)).1 := by
            simp [foldSends]
          rw [this, hidx]
          simp
        · rw [ih2 hr, hlen]
          simp only [List.length_cons]
          have : rest.length ≠ 0 := fun h0 => hr (List.length_eq_zero.mp h0)
          omega

/-- C6: each successful stateless send appends exactly one turn at the
end of the history (never mid-sequence) and moves the cursor to it; and
after the first k of any sequence of successful sends from the reset
state the history length is k and the cursor is k minus one. -/
theorem C6_send_appends :
    (∀ (st : ProjectChatState) (input : String) (resp : ChatResponse),
        trimStr input ≠ "" →
        (sendProjectChatMessage true st input (Except.ok resp)).1.projectChatHistory
            = st.projectChatHistory ++
              [{ user := trimStr input, assistant := resp.assistant_text }] ∧
          (sendProjectChatMessage true st input (Except.ok resp)).1.projectChatIndex
            = st.projectChatHistory.length) ∧
    (∀ sends : List (String × ChatResponse),
        (∀ p ∈ sends, trimStr p.1 ≠ "") →
        ∀ k, k ≤ sends.length →
          (sendAll (sends.take k)).projectChatHistory.length = k ∧
            (0 < k → (sendAll (sends.take k)).projectChatIndex = k - 1)) := by
  constructor
  · intro st input resp h
    constructor
    · simp [sendProjectChatMessage, h]
    · simp [sendProjectChatMessage, h]
  · intro sends hall k hk
    have hsub : ∀ p ∈ sends.take k, trimStr p.1 ≠ "" :=
      fun p hp => hall p (List.take_subset k sends hp)
    have hlen : (sends.take k).length = k := by
      rw [List.length_take]
      omega
    rcases foldSends_shape (sends.take k) resetChatState hsub with ⟨h1, h2⟩
    constructor
    · rw [sendAll, h1, hlen]
      simp [resetChatState]
    · intro hkpos
      have hne : sends.take k ≠ [] := by
        intro h0
        rw [h0] at hlen
        simp at hlen
        omega
      rw [sendAll, h2 hne, hlen]
      simp [resetChatState]

def demoSends : List (String × ChatResponse) :=
  [("hello", { assistant_text := "a1" }), ("project status", { assistant_text := "a2" })]

/-- C6 witness: two successful sends from the reset state leave a
history of length two with the cursor on the second turn. -/
theorem C6_send_appends_witness :
    (sendAll (demoSends.take 2)).projectChatHistory.length = 2 ∧
      (0 < 2 → (sendAll (demoSends.take 2)).projectChatIndex = 2 - 1) :=
  C6_send_appends.2 demoSends (by decide) 2 (by decide)

/-- navigateProjectChat from the source: the cursor moves by the given
direction only when the new position lies inside the history bounds;
otherwise the call is a no-op.  The history itself is never touched. -/
def navigateProjectChat (st : ProjectChatState) (direction : Int) : ProjectChatState :=
  let newIndex : Int := (st.projectChatIndex : Int) + direction
  if 0 ≤ newIndex ∧ newIndex < (st.projectChatHistory.length : Int) then
    { st with projectChatIndex := newIndex.toNat }
  else st

lemma navigateProjectChat_index_lt {st : ProjectChatState} {d : Int}
    (h : st.projectChatIndex < st.projectChatHistory.length) :
    (navigateProjectChat st d).projectChatIndex < st.projectChatHistory.length := by
  unfold navigateProjectChat
  by_cases hc : 0 ≤ (st.projectChatIndex : Int) + d ∧
      (st.projectChatIndex : Int) + d < (st.projectChatHistory.length : Int)
  · rw [if_pos hc]
    rcases hc with ⟨hc1, hc2⟩
    simp only
    omega
  · rw [if_neg hc]
    exact h

/-- C7: prev and next (direction plus or minus one) move the cursor by
exactly one position or not at all, never mutate the history, are
no-ops on an empty history and at both boundaries, and across any
sequence of navigation calls a cursor inside the bounds stays inside
the bounds. -/
theorem C7_navigation_clamped :
    (∀ (st : ProjectChatState) (d : Int),
        (navigateProjectChat st d).projectChatHistory = st.projectChatHistory) ∧
    (∀ (st : ProjectChatState) (d : Int),
        st.projectChatHistory = [] → navigateProjectChat st d = st) ∧
    (∀ st : ProjectChatState,
        st.projectChatIndex = 0 → navigateProjectChat st (-1) = st) ∧
    (∀ st : ProjectChatState,
        st.projectChatIndex + 1 = st.projectChatHistory.length →
        navigateProjectChat st 1 = st) ∧
    (∀ (st : ProjectChatState) (d : Int), (d = -1 ∨ d = 1) →
        (navigateProjectChat st d).projectChatIndex = st.projectChatIndex ∨
        ((navigateProjectChat st d).projectChatIndex : Int)
          = (st.projectChatIndex : Int) + d) ∧
    (∀ (st : ProjectChatState) (moves : List Int),
        st.projectChatIndex < st.projectChatHistory.length →
        (moves.foldl navigateProjectChat st).projectChatIndex
          < (moves.foldl navigateProjectChat st).projectChatHistory.length) := by
  have hhist : ∀ (st : ProjectChatState) (d : Int),
      (navigateProjectChat st d).projectChatHistory = st.projectChatHistory := by
    intro st d
    unfold navigateProjectChat
    by_cases hc : 0 ≤ (st.projectChatIndex : Int) + d ∧
        (st.projectChatIndex : Int) + d < (st.projectChatHistory.length : Int)
    · rw [if_pos hc]
    · rw [if_neg hc]
  refine ⟨hhist, ?_, ?_, ?_, ?_, ?_⟩
  · intro st d h
    unfold navigateProjectChat
    rw [if_neg]
    intro hc
    rw [h] at hc
    simp at hc
    omega
  · intro st h
    unfold navigateProjectChat
    rw [if_neg]
    intro hc
    rw [h] at hc
    omega
  · intro st h
    unfold navigateProjectChat
    rw [if_neg]
    intro hc
    omega
  · intro st d _
    unfold navigateProjectChat
    by_cases hc : 0 ≤ (st.projectChatIndex : Int) + d ∧
        (st.projectChatIndex : Int) + d < (st.projectChatHistory.length : Int)
    · rw [if_pos hc]
      right
      simp only
      omega
    · rw [if_neg hc]
      left
      rfl
  · intro st moves h
    induction moves generalizing st with
    | nil => simpa using h
    | cons d rest ih =>
        simp only [List.foldl_cons]
        exact ih (navigateProjectChat st d)
          (by rw [hhist st d]; exact navigateProjectChat_index_lt h)

def demoNavState : ProjectChatState :=
  { projectChatHistory :=
      [{ user := "u1", assistant := "a1" }, { user := "u2", assistant := "a2" }],
    projectChatIndex := 0 }

/-- C7 witness: a concrete burst of prev and next calls on a two-turn
history keeps the cursor inside the bounds. -/
theorem C7_navigation_clamped_witness :
    (([-1, 1, 1, 1] : List Int).foldl navigateProjectChat demoNavState).projectChatIndex
      < (([-1, 1, 1, 1] : List Int).foldl navigateProjectChat
          demoNavState).projectChatHistory.length :=
  C7_navigation_clamped.2.2.2.2.2 demoNavState [-1, 1, 1, 1] (by decide)

/-- C10: a stateless send whose backend call fails leaves the history
and the cursor exactly as they were - no turn is appended - and only
the inline failure rendering is produced. -/
theorem C10_failed_send_no_append :
    ∀ (st : ProjectChatState) (input err : String),
      trimStr input ≠ "" →
      (sendProjectChatMessage true st input (Except.error err)).1 = st ∧
        (sendProjectChatMessage true st input (Except.error err)).2
          = ChatDisplay.failure (trimStr input) := by
  intro st input err h
  constructor
  · simp [sendProjectChatMessage, h]
  · simp [sendProjectChatMessage, h]

/-- C10 witness: a failing send on a concrete one-turn navigator state
changes nothing. -/
theorem C10_failed_send_no_append_witness :
    (sendProjectChatMessage true demoNavState "ask" (Except.error "boom")).1
        = demoNavState ∧
      (sendProjectChatMessage true demoNavState "ask" (Except.error "boom")).2
        = ChatDisplay.failure (trimStr "ask") :=
  C10_failed_send_no_append demoNavState "ask" "boom" (by decide)

/-! ## Conflict Resolution Flow (resolveConflict, closeConflictModal) -/

/-- One side of a conflict: a record-shaped view. -/
structure ConflictView where
  id : String
  statement : String
deriving Repr, DecidableEq

/-- The payload of a conflict-detected event held while the modal is
open. -/
structure ConflictData where
  existing_memory : ConflictView
  new_memory : ConflictView
deriving Repr, DecidableEq

/-- The state the conflict flow touches: whether the modal is open, the
held conflict payload, whether the originating notification tile still
blinks, and whether the Record Cache was refreshed by this
interaction. -/
structure ConflictState where
  modalOpen : Bool
  currentConflictData : Option ConflictData
  conflictBlink : Bool
  ledgerRefreshed : Bool
deriving Repr, DecidableEq

/-- resolveConflict from the source, given the result of the
resolve-conflict backend call: without a held conflict or a selected
project it only toasts; on success it toasts, closes the modal (which
clears the held payload and removes the blink highlight), and refreshes
the ledger; on failure it only surfaces the error, leaving the modal
open and the payload held. -/
def resolveConflict (projectSelected : Bool) (st : ConflictState)
    (resolution : String) (result : Except String Unit) : ConflictState × Toast :=
  if st.currentConflictData = none ∨ projectSelected = false then
    (st, Toast.error "No conflict to resolve")
  else
    match result with
    | Except.ok _ =>
        ({ st with
            modalOpen := false
            currentConflictData := none
            conflictBlink := false
            ledgerRefreshed := true },
          if resolution = "keep" then
            Toast.success "Kept existing memory. New memory discarded."
          else Toast.success "New memory created. Previous marked as disputed.")
    | Except.error e => (st, Toast.error ("Failed to resolve conflict: " ++ e))

/-- C9: with a conflict held and the modal open, a failing disposition
submission leaves the state (in particular the open modal) untouched
and surfaces an error, while a successful one closes the modal, clears
the held payload and the blink highlight of the originating
notification, and refreshes the Record Cache. -/
theorem C9_conflict_disposition :
    ∀ (st : ConflictState) (c : ConflictData) (resolution err : String),
      st.currentConflictData = some c → st.modalOpen = true →
      ((resolveConflict true st resolution (Except.error err)).1 = st ∧
        (resolveConflict true st resolution (Except.error err)).1.modalOpen = true ∧
        (resolveConflict true st resolution (Except.error err)).2
          = Toast.error ("Failed to resolve conflict: " ++ err)) ∧
      ((resolveConflict true st resolution (Except.ok ())).1.modalOpen = false ∧
        (resolveConflict true st resolution (Except.ok ())).1.currentConflictData = none ∧
        (resolveConflict true st resolution (Except.ok ())).1.conflictBlink = false ∧
        (resolveConflict true st resolution (Except.ok ())).1.ledgerRefreshed = true) := by
  intro st c resolution err hdata hopen
  refine ⟨⟨?_, ?_, ?_⟩, ?_, ?_, ?_, ?_⟩ <;>
    simp [resolveConflict, hdata, hopen]

def demoConflictState : ConflictState :=
  { modalOpen := true,
    currentConflictData := some
      { existing_memory := { id := "m1", statement := "use sql" },
        new_memory := { id := "", statement := "use nosql" } },
    conflictBlink := true,
    ledgerRefreshed := false }

/-- C9 witness: a concrete held conflict, with a failing and a
succeeding keep submission. -/
theorem C9_conflict_disposition_witness :
    ((resolveConflict true demoConflictState "keep" (Except.error "boom")).1
        = demoConflictState ∧
      (resolveConflict true demoConflictState "keep" (Except.error "boom")).1.modalOpen
        = true ∧
      (resolveConflict true demoConflictState "keep" (Except.error "boom")).2
        = Toast.error ("Failed to resolve conflict: " ++ "boom")) ∧
    ((resolveConflict true demoConflictState "keep" (Except.ok ())).1.modalOpen = false ∧
      (resolveConflict true demoConflictState "keep" (Except.ok ())).1.currentConflictData
        = none ∧
      (resolveConflict true demoConflictState "keep" (Except.ok ())).1.conflictBlink
        = false ∧
      (resolveConflict true demoConflictState "keep" (Except.ok ())).1.ledgerRefreshed
        = true) :=
  C9_conflict_disposition demoConflictState
    { existing_memory := { id := "m1", statement := "use sql" },
      new_memory := { id := "", statement := "use nosql" } }
    "keep" "boom" rfl rfl

end DecisionOS
